import Mathlib

/-!
Verification development for the `address-details-api` repository
(`addressDetailsApi/paris`): a shallow embedding in Lean 4 of the spatial
resolution utilities (`paris/utils.py`) and of the combined permits endpoint
handler (`paris/views.py`), together with theorems settling the frozen claims
about the natural-language specification.

Modelling conventions:
* Python floats are modelled as `ℚ` (all arithmetic in the embedded code is
  exact on the inputs considered).
* A value obtained from an upstream HTTP call is a `FetchResult`: either
  `failure msg` (transport error, non-2xx status, or JSON decoding error — all
  of which surface as `requests.RequestException` and are caught by the code)
  or `success body` with the parsed body.
* Python `dict.get` lookups with possibly-missing keys are `Option` fields.
* A local JSON dataset file is `Option data`: `none` models a missing file
  (`FileNotFoundError`).
-/

/-- A scalar JSON/Python value as it occurs in feature attributes: either an
integer or a string.  Carries Python truthiness and `str()` conversion. -/
inductive PyScalar where
  | int (n : Int)
  | str (s : String)
deriving DecidableEq, Repr

/-- Python truthiness of a scalar: `0` and `""` are falsy. -/
def PyScalar.truthy : PyScalar → Bool
  | .int n => n != 0
  | .str s => s != ""

/-- Python `str()` of a scalar. -/
def PyScalar.toStr : PyScalar → String
  | .int n => toString n
  | .str s => s

/-- Attributes of a building-footprint feature, as read by
`get_construction_year` and by the summary construction in
`get_building_data_by_cadastral_parcel_id` (utils.py).  Each field models a
`dict.get` lookup of the corresponding key. -/
structure BAttributes where
  an_const : Option PyScalar
  c_perconst : Option Int
  n_sq_pc : Option Int
  shape_area : Option PyScalar
  shape_length : Option PyScalar
  b_terrasse : Option PyScalar
deriving DecidableEq, Repr

/-- The `period_mapping` dict literal of `get_construction_year`
(utils.py lines 196–209), in source order. -/
def period_mapping : List (Int × String) :=
  [(1, "Before 1850"),
   (2, "from 1801 to 1850"),
   (3, "from 1851 to 1914"),
   (5, "from 1915 to 1939"),
   (6, "from 1940 to 1967"),
   (7, "from 1968 to 1975"),
   (8, "from 1976 to 1981"),
   (9, "from 1982 to 1989"),
   (10, "from 1990 to 1999"),
   (11, "2000 and up"),
   (12, "2008 and up"),
   (99, "Year Unknown")]

/-- `period_mapping.get(attributes.get("c_perconst"), "Year Unknown")`:
the fallback branch of `get_construction_year`. -/
def periodLabel : Option Int → String
  | none => "Year Unknown"
  | some c => (period_mapping.lookup c).getD "Year Unknown"

/-- `get_construction_year` (utils.py lines 182–211): if `an_const` is present
and truthy, return its `str()`; otherwise look `c_perconst` up in
`period_mapping`, defaulting to `"Year Unknown"`. -/
def get_construction_year (attributes : BAttributes) : String :=
  match attributes.an_const with
  | some year => if year.truthy then year.toStr else periodLabel attributes.c_perconst
  | none => periodLabel attributes.c_perconst

/-- A feature of the local parcel dataset `cadastre-75-parcelles.json`:
`id` models `feature.get("id")`; `rest` stands for the remaining key/value
pairs of the feature object, which the search never inspects. -/
structure CadFeature where
  id : Option String
  rest : List (String × String)
deriving DecidableEq, Repr

/-- Result of `fetch_parcel_by_id`: the matching feature, or an error dict. -/
inductive ParcelFetchResult where
  | found (f : CadFeature)
  | error (msg : String)
deriving DecidableEq, Repr

/-- Python `str()` of an optional string (an f-string renders `None` as
`"None"`). -/
def pyStr : Option String → String
  | none => "None"
  | some s => s

/-- The search loop of `fetch_parcel_by_id` (utils.py lines 80–82):
first feature whose `id` equals `parcel_id` under Python `==`. -/
def findParcel (parcel_id : Option String) : List CadFeature → Option CadFeature
  | [] => none
  | f :: rest => if f.id == parcel_id then some f else findParcel parcel_id rest

/-- `fetch_parcel_by_id` (utils.py lines 61–84).  `dataset` is the parsed
local file (`none` models `FileNotFoundError`). -/
def fetch_parcel_by_id (dataset : Option (List CadFeature))
    (parcel_id : Option String) : ParcelFetchResult :=
  match dataset with
  | none => .error "Cadastral data not found."
  | some features =>
    match findParcel parcel_id features with
    | some f => .found f
    | none => .error ("No matching parcel found for ID " ++ pyStr parcel_id ++ ".")

lemma findParcel_append_of_none (parcel_id : Option String)
    (pre rest : List CadFeature)
    (h : ∀ g ∈ pre, (g.id == parcel_id) = false) :
    findParcel parcel_id (pre ++ rest) = findParcel parcel_id rest := by
  induction pre with
  | nil => rfl
  | cons g pre ih =>
    have hg := h g (by simp)
    simp only [List.cons_append, findParcel, hg, Bool.false_eq_true, if_false]
    exact ih (fun g hg => h g (by simp [hg]))

lemma findParcel_eq_none (parcel_id : Option String) (fs : List CadFeature)
    (h : ∀ g ∈ fs, (g.id == parcel_id) = false) :
    findParcel parcel_id fs = none := by
  induction fs with
  | nil => rfl
  | cons g fs ih =>
    have hg := h g (by simp)
    simp only [findParcel, hg, Bool.false_eq_true, if_false]
    exact ih (fun g hg => h g (by simp [hg]))

/-- C5: the parcel detail fetcher scans features linearly and returns the
first feature whose `id` equals `parcel_id` (Python `==`, i.e. exact string
equality, with a null `parcel_id` compared the same way); a missing dataset
file yields `{error: "Cadastral data not found."}`; no match yields
`{error: "No matching parcel found for ID <parcel_id>."}`, in particular
`"No matching parcel found for ID UNKNOWN_ID."` for `"UNKNOWN_ID"`. -/
theorem C5_fetch_parcel_by_id
    (parcel_id : Option String) (pre post fs : List CadFeature) (f : CadFeature) :
    (fetch_parcel_by_id none parcel_id = .error "Cadastral data not found.")
    ∧ ((f.id == parcel_id) = true → (∀ g ∈ pre, (g.id == parcel_id) = false) →
        fetch_parcel_by_id (some (pre ++ f :: post)) parcel_id = .found f)
    ∧ ((∀ g ∈ fs, (g.id == parcel_id) = false) →
        fetch_parcel_by_id (some fs) parcel_id =
          .error ("No matching parcel found for ID " ++ pyStr parcel_id ++ "."))
    ∧ ((∀ g ∈ fs, (g.id == some "UNKNOWN_ID") = false) →
        fetch_parcel_by_id (some fs) (some "UNKNOWN_ID") =
          .error "No matching parcel found for ID UNKNOWN_ID.") := by
  refine ⟨rfl, ?_, ?_, ?_⟩
  · intro hf hpre
    simp only [fetch_parcel_by_id, findParcel_append_of_none parcel_id pre _ hpre,
      findParcel, hf, if_true]
  · intro h
    simp only [fetch_parcel_by_id, findParcel_eq_none parcel_id fs h]
  · intro h
    simp only [fetch_parcel_by_id, findParcel_eq_none (some "UNKNOWN_ID") fs h]
    rfl

/-- Witness for C5 at a concrete dataset: two features, the second carrying
the requested id. -/
theorem C5_fetch_parcel_by_id_witness :
    fetch_parcel_by_id
        (some [⟨some "P1", []⟩, ⟨some "P2", [("surface", "42")]⟩]) (some "P2") =
      .found ⟨some "P2", [("surface", "42")]⟩
    ∧ fetch_parcel_by_id (some [⟨some "P1", []⟩]) (some "UNKNOWN_ID") =
      .error "No matching parcel found for ID UNKNOWN_ID." := by
  have h := C5_fetch_parcel_by_id (some "P2") [⟨some "P1", []⟩] []
    [⟨some "P1", []⟩] ⟨some "P2", [("surface", "42")]⟩
  have h' := C5_fetch_parcel_by_id (some "UNKNOWN_ID") [] [] [⟨some "P1", []⟩]
    ⟨some "P2", [("surface", "42")]⟩
  exact ⟨h.2.1 (by decide) (by decide), h'.2.2.2 (by decide)⟩

/-- C4: the construction-era function returns `str()` of `an_const` when that
attribute is present and truthy (for a string: non-empty); otherwise it maps
`c_perconst` through the fixed 12-entry `period_mapping` table over codes
1,2,3,5,6,7,8,9,10,11,12,99, returning `"Year Unknown"` for any other or
missing code; in particular code 7 yields `"from 1968 to 1975"` and code 150
yields `"Year Unknown"`. -/
theorem C4_get_construction_year (a : BAttributes) :
    (∀ v, a.an_const = some v → v.truthy = true →
        get_construction_year a = v.toStr)
    ∧ (∀ v, a.an_const = some v → v.truthy = false →
        get_construction_year a = periodLabel a.c_perconst)
    ∧ (a.an_const = none → get_construction_year a = periodLabel a.c_perconst)
    ∧ periodLabel (some 7) = "from 1968 to 1975"
    ∧ periodLabel (some 150) = "Year Unknown"
    ∧ periodLabel none = "Year Unknown"
    ∧ (∀ c : Int, c ∉ ([1, 2, 3, 5, 6, 7, 8, 9, 10, 11, 12, 99] : List Int) →
        periodLabel (some c) = "Year Unknown")
    ∧ (∀ c lbl, (c, lbl) ∈ period_mapping → periodLabel (some c) = lbl) := by
  refine ⟨?_, ?_, ?_, by decide, by decide, rfl, ?_, ?_⟩
  · intro v hv htr
    simp only [get_construction_year, hv, htr, if_true]
  · intro v hv htr
    simp only [get_construction_year, hv, htr, Bool.false_eq_true, if_false]
  · intro hv
    simp only [get_construction_year, hv]
  · intro c hc
    simp only [List.mem_cons, List.not_mem_nil, or_false, not_or] at hc
    obtain ⟨h1, h2, h3, h5, h6, h7, h8, h9, h10, h11, h12, h99⟩ := hc
    simp only [periodLabel, period_mapping, List.lookup]
    rw [beq_eq_false_iff_ne.mpr (h1), beq_eq_false_iff_ne.mpr (h2),
      beq_eq_false_iff_ne.mpr (h3), beq_eq_false_iff_ne.mpr (h5),
      beq_eq_false_iff_ne.mpr (h6), beq_eq_false_iff_ne.mpr (h7),
      beq_eq_false_iff_ne.mpr (h8), beq_eq_false_iff_ne.mpr (h9),
      beq_eq_false_iff_ne.mpr (h10), beq_eq_false_iff_ne.mpr (h11),
      beq_eq_false_iff_ne.mpr (h12), beq_eq_false_iff_ne.mpr (h99)]
    rfl
  · intro c lbl hmem
    fin_cases hmem <;> rfl

/-- Witness for C4: a feature with exact year `"1932"` uses it; a feature with
period code 7 and no exact year is bucketed under `"from 1968 to 1975"`;
code 150 under `"Year Unknown"`. -/
theorem C4_get_construction_year_witness :
    get_construction_year ⟨some (.str "1932"), some 7, none, none, none, none⟩ = "1932"
    ∧ get_construction_year ⟨none, some 7, none, none, none, none⟩ = "from 1968 to 1975"
    ∧ get_construction_year ⟨none, some 150, none, none, none, none⟩ = "Year Unknown" := by
  have h1 := C4_get_construction_year ⟨some (.str "1932"), some 7, none, none, none, none⟩
  have h2 := C4_get_construction_year ⟨none, some 7, none, none, none, none⟩
  have h3 := C4_get_construction_year ⟨none, some 150, none, none, none, none⟩
  refine ⟨h1.1 (.str "1932") rfl (by decide), ?_, ?_⟩
  · rw [h2.2.2.1 rfl]; exact h2.2.2.2.1
  · rw [h3.2.2.1 rfl]
    exact h3.2.2.2.2.2.2.1 150 (by decide)

/-- Outcome of an upstream HTTP call as observed by the calling code:
`failure` covers a transport error, a non-2xx status (raised by
`raise_for_status`) and a JSON decoding error — each surfaces as a
`requests.RequestException` with message `msg`; `success` carries the parsed
body. -/
inductive FetchResult (β : Type) where
  | failure (msg : String)
  | success (body : β)
deriving DecidableEq, Repr

/-- `properties` sub-object of a reverse-geocode feature:
`distance` models `properties.get("distance")`, `id` models
`properties.get("id")`. -/
structure RevProperties where
  distance : Option ℚ
  id : Option String
deriving DecidableEq, Repr

/-- A feature of the reverse-geocode response; `properties` models the
possibly-missing `"properties"` key (`feature.get("properties", {})`). -/
structure RevFeature where
  properties : Option RevProperties
deriving DecidableEq, Repr

/-- Parsed body of the reverse-geocode response.  `truthy` is the Python
truthiness of the whole parsed value (`not parcel_data`); `features` models
presence of the `"features"` key. -/
structure RevBody where
  truthy : Bool
  features : Option (List RevFeature)
deriving DecidableEq, Repr

/-- `feature.get("properties", {}).get("distance")`. -/
def distOf (f : RevFeature) : Option ℚ :=
  (f.properties.getD ⟨none, none⟩).distance

/-- `feature["properties"].get("id")` (only evaluated by the code when a
distance was found, hence when `properties` is present). -/
def idOf (f : RevFeature) : Option String :=
  (f.properties.getD ⟨none, none⟩).id

/-- `distance < closest_distance` where the running minimum starts at
`float("inf")`, modelled as `none`. -/
def ltInf (d : ℚ) : Option ℚ → Bool
  | none => true
  | some c => decide (d < c)

/-- The scanning loop of `get_parcel_data` (utils.py lines 113–119): state is
`(closest_distance, parcel_id)`; a feature without a distance is skipped; a
strictly smaller distance updates both components. -/
def closestScan : List RevFeature → Option ℚ × Option String → Option ℚ × Option String
  | [], st => st
  | f :: rest, st =>
    match distOf f with
    | none => closestScan rest st
    | some d =>
      if ltInf d st.1 then closestScan rest (some d, idOf f)
      else closestScan rest st

/-- The `"parcel_data"` component of the result of `get_parcel_data`: either
the `{"error": ...}` dict built in the except branch, or the raw parsed
response body. -/
inductive RawParcelData where
  | errorMsg (msg : String)
  | body (b : RevBody)
deriving DecidableEq, Repr

/-- Result dict of `get_parcel_data`: keys `"parcel_id"` and `"parcel_data"`
(the latter is what the specification calls the raw response). -/
structure ParcelLocate where
  parcel_id : Option String
  parcel_data : RawParcelData
deriving DecidableEq, Repr

/-- `get_parcel_data` (utils.py lines 87–120), as a function of the upstream
reverse-geocode call's outcome.  Total: every branch returns a dict, so the
function never propagates an exception to its caller. -/
def get_parcel_data (upstream : FetchResult RevBody) : ParcelLocate :=
  match upstream with
  | .failure msg => ⟨none, .errorMsg ("Failed to fetch parcel data: " ++ msg)⟩
  | .success parcel_data =>
    if !parcel_data.truthy || parcel_data.features.isNone then
      ⟨none, .body parcel_data⟩
    else
      ⟨(closestScan (parcel_data.features.getD []) (none, none)).2,
        .body parcel_data⟩

lemma closestScan_cons_none (g : RevFeature) (rest : List RevFeature)
    (st : Option ℚ × Option String) (hg : distOf g = none) :
    closestScan (g :: rest) st = closestScan rest st := by
  simp only [closestScan, hg]

lemma closestScan_cons_some_lt (g : RevFeature) (rest : List RevFeature)
    (st : Option ℚ × Option String) (d : ℚ) (hg : distOf g = some d)
    (hlt : ltInf d st.1 = true) :
    closestScan (g :: rest) st = closestScan rest (some d, idOf g) := by
  simp only [closestScan, hg, hlt, if_true]

lemma closestScan_cons_some_ge (g : RevFeature) (rest : List RevFeature)
    (st : Option ℚ × Option String) (d : ℚ) (hg : distOf g = some d)
    (hlt : ltInf d st.1 = false) :
    closestScan (g :: rest) st = closestScan rest st := by
  simp only [closestScan, hg, hlt, Bool.false_eq_true, if_false]

lemma closestScan_append (xs ys : List RevFeature)
    (st : Option ℚ × Option String) :
    closestScan (xs ++ ys) st = closestScan ys (closestScan xs st) := by
  induction xs generalizing st with
  | nil => rfl
  | cons g xs ih =>
    cases hg : distOf g with
    | none =>
      rw [List.cons_append, closestScan_cons_none g _ st hg,
        closestScan_cons_none g _ st hg, ih]
    | some d =>
      cases hlt : ltInf d st.1 with
      | true =>
        rw [List.cons_append, closestScan_cons_some_lt g _ st d hg hlt,
          closestScan_cons_some_lt g _ st d hg hlt, ih]
      | false =>
        rw [List.cons_append, closestScan_cons_some_ge g _ st d hg hlt,
          closestScan_cons_some_ge g _ st d hg hlt, ih]

/-- The running minimum after a scan either is the initial one or is a
distance carried by one of the scanned features. -/
lemma closestScan_fst_cases (xs : List RevFeature)
    (st : Option ℚ × Option String) :
    (closestScan xs st).1 = st.1
    ∨ ∃ g ∈ xs, ∃ e, distOf g = some e ∧ (closestScan xs st).1 = some e := by
  induction xs generalizing st with
  | nil => exact Or.inl rfl
  | cons g xs ih =>
    cases hg : distOf g with
    | none =>
      rw [closestScan_cons_none g xs st hg]
      rcases ih st with h | ⟨g', hg', e, he, hres⟩
      · exact Or.inl h
      · exact Or.inr ⟨g', by simp [hg'], e, he, hres⟩
    | some d =>
      cases hlt : ltInf d st.1 with
      | true =>
        rw [closestScan_cons_some_lt g xs st d hg hlt]
        rcases ih (some d, idOf g) with h | ⟨g', hg', e, he, hres⟩
        · exact Or.inr ⟨g, by simp, d, hg, h⟩
        · exact Or.inr ⟨g', by simp [hg'], e, he, hres⟩
      | false =>
        rw [closestScan_cons_some_ge g xs st d hg hlt]
        rcases ih st with h | ⟨g', hg', e, he, hres⟩
        · exact Or.inl h
        · exact Or.inr ⟨g', by simp [hg'], e, he, hres⟩

/-- Once the running minimum `c` is at most every remaining distance, the
strict-less-than test never fires again: the state survives unchanged.  In
particular a later distance equal to `c` does not overwrite the selection. -/
lemma closestScan_keep (xs : List RevFeature) (c : ℚ) (p : Option String)
    (h : ∀ g ∈ xs, ∀ e, distOf g = some e → c ≤ e) :
    closestScan xs (some c, p) = (some c, p) := by
  induction xs with
  | nil => rfl
  | cons g xs ih
  =>
    cases hg : distOf g with
    | none =>
      rw [closestScan_cons_none g xs _ hg]
      exact ih (fun g' hg' => h g' (by simp [hg']))
    | some d =>
      have hcd : c ≤ d := h g (by simp) d hg
      have hlt : ltInf d (some c, p).1 = false := by
        simp only [ltInf, decide_eq_false_iff_not, not_lt]
        exact hcd
      rw [closestScan_cons_some_ge g xs _ d hg hlt]
      exact ih (fun g' hg' => h g' (by simp [hg']))

lemma closestScan_all_none (xs : List RevFeature)
    (st : Option ℚ × Option String)
    (h : ∀ g ∈ xs, distOf g = none) :
    closestScan xs st = st := by
  induction xs with
  | nil => rfl
  | cons g xs ih =>
    rw [closestScan_cons_none g xs st (h g (by simp))]
    exact ih (fun g' hg' => h g' (by simp [hg']))

/-- C2: on a reverse-geocode body with a features list, the parcel locator
selects the `properties.id` of the feature achieving the minimum
`properties.distance` under strict less-than comparison — the first feature
of a tied minimum wins and later equal distances do not overwrite it — and
features without a `distance` are skipped (a body whose features all lack a
distance selects no parcel id at all, rather than treating them as 0). -/
theorem C2_get_parcel_data_closest (b : RevBody) (pre post fs : List RevFeature)
    (f : RevFeature) (d : ℚ) :
    (b.truthy = true → b.features = some (pre ++ f :: post) →
      distOf f = some d →
      (∀ g ∈ pre, ∀ e, distOf g = some e → d < e) →
      (∀ g ∈ post, ∀ e, distOf g = some e → d ≤ e) →
      (get_parcel_data (.success b)).parcel_id = idOf f)
    ∧ (b.truthy = true → b.features = some fs →
      (∀ g ∈ fs, distOf g = none) →
      (get_parcel_data (.success b)).parcel_id = none) := by
  constructor
  · intro htr hfs hd hpre hpost
    simp only [get_parcel_data, hfs, htr, Option.isNone_some, Bool.not_true,
      Bool.false_or, Bool.false_eq_true, if_false, Option.getD_some]
    rw [closestScan_append pre (f :: post) (none, none)]
    have hfire : ltInf d (closestScan pre (none, none)).1 = true := by
      rcases closestScan_fst_cases pre (none, none) with h | ⟨g, hg, e, he, hres⟩
      · rw [h]; rfl
      · rw [hres]
        simp only [ltInf, decide_eq_true_eq]
        exact hpre g hg e he
    rw [closestScan_cons_some_lt f post _ d hd hfire,
      closestScan_keep post d (idOf f) hpost]
  · intro htr hfs hall
    simp only [get_parcel_data, hfs, htr, Option.isNone_some, Bool.not_true,
      Bool.false_or, Bool.false_eq_true, if_false, Option.getD_some]
    rw [closestScan_all_none fs (none, none) hall]

/-- Witness for C2 on the specification's example distances
[12.3, 4.1, 4.1, 9.0]: the feature at index 1 (id `"B"`) is selected, not the
tied one at index 2. -/
theorem C2_get_parcel_data_closest_witness :
    (get_parcel_data (.success
        ⟨true, some
          [⟨some ⟨some (123/10), some "A"⟩⟩,
           ⟨some ⟨some (41/10), some "B"⟩⟩,
           ⟨some ⟨some (41/10), some "C"⟩⟩,
           ⟨some ⟨some (9), some "D"⟩⟩]⟩)).parcel_id = some "B" := by
  have h := C2_get_parcel_data_closest
    ⟨true, some
      [⟨some ⟨some (123/10), some "A"⟩⟩,
       ⟨some ⟨some (41/10), some "B"⟩⟩,
       ⟨some ⟨some (41/10), some "C"⟩⟩,
       ⟨some ⟨some (9), some "D"⟩⟩]⟩
    [⟨some ⟨some (123/10), some "A"⟩⟩]
    [⟨some ⟨some (41/10), some "C"⟩⟩, ⟨some ⟨some (9), some "D"⟩⟩]
    [] ⟨some ⟨some (41/10), some "B"⟩⟩ (41/10)
  have hres := h.1 rfl rfl rfl
    (by
      intro g hg e he
      simp only [List.mem_singleton] at hg
      subst hg
      simp only [distOf, Option.getD_some] at he
      rw [Option.some_inj] at he
      rw [← he]
      norm_num)
    (by
      intro g hg e he
      simp only [List.mem_cons, List.not_mem_nil, or_false] at hg
      rcases hg with hg | hg <;>
        (subst hg
         simp only [distOf, Option.getD_some, Option.some_inj] at he
         subst he
         norm_num))
  exact hres

/-- C8: the parcel locator is a total function of the upstream outcome — it
never propagates an exception: a transport/HTTP/decoding failure is converted
to `{"parcel_id": None, "parcel_data": {"error": <message>}}`, and a body that
is falsy (empty/null) or lacks a `"features"` key yields
`{"parcel_id": None}` with the raw body attached. -/
theorem C8_get_parcel_data_failures (msg : String) (b : RevBody) :
    (get_parcel_data (.failure msg) =
      ⟨none, .errorMsg ("Failed to fetch parcel data: " ++ msg)⟩)
    ∧ (b.truthy = false → get_parcel_data (.success b) = ⟨none, .body b⟩)
    ∧ (b.features = none → get_parcel_data (.success b) = ⟨none, .body b⟩) := by
  refine ⟨rfl, ?_, ?_⟩
  · intro htr
    simp only [get_parcel_data, htr, Bool.not_false, Bool.true_or, if_true]
  · intro hf
    simp only [get_parcel_data, hf, Option.isNone_none, Bool.or_true, if_true]

/-- Witness for C8: a failed call and an empty body, evaluated concretely. -/
theorem C8_get_parcel_data_failures_witness :
    get_parcel_data (.failure "connection refused") =
      ⟨none, .errorMsg "Failed to fetch parcel data: connection refused"⟩
    ∧ get_parcel_data (.success ⟨false, none⟩) = ⟨none, .body ⟨false, none⟩⟩ := by
  have h := C8_get_parcel_data_failures "connection refused" ⟨false, none⟩
  exact ⟨h.1, h.2.1 rfl⟩

/-- A planar point with exact rational coordinates (the shapely `Point`). -/
structure Pt where
  x : ℚ
  y : ℚ
deriving DecidableEq, Repr

/-- A polygon exterior ring, given as its closed vertex list (GeoJSON rings
repeat the first vertex at the end). -/
abbrev PRing := List Pt

/-- Consecutive vertex pairs of a ring: its boundary segments. -/
def edges (ring : PRing) : List (Pt × Pt) := ring.zip ring.tail

/-- Cross product `(a - o) × (b - o)`: zero iff `o`, `a`, `b` are collinear. -/
def cross (o a b : Pt) : ℚ :=
  (a.x - o.x) * (b.y - o.y) - (a.y - o.y) * (b.x - o.x)

/-- Does `p` lie on the closed segment from `a` to `b`? -/
def onSegment (a b p : Pt) : Bool :=
  decide (cross a b p = 0 ∧ min a.x b.x ≤ p.x ∧ p.x ≤ max a.x b.x ∧
    min a.y b.y ≤ p.y ∧ p.y ≤ max a.y b.y)

/-- Does `p` lie on the boundary of the ring? -/
def onBoundary (ring : PRing) (p : Pt) : Bool :=
  (edges ring).any (fun e => onSegment e.1 e.2 p)

/-- Does the horizontal ray from `p` towards `+x` cross the segment `a`–`b`?
(Standard even–odd rule test with the half-open vertical range that makes
vertices count once.) -/
def rayCrosses (a b p : Pt) : Bool :=
  (decide (p.y < a.y) != decide (p.y < b.y)) &&
    decide (p.x < (b.x - a.x) * (p.y - a.y) / (b.y - a.y) + a.x)

/-- Even–odd interior test: an odd number of boundary crossings. -/
def crossingsOdd (ring : PRing) (p : Pt) : Bool :=
  ((edges ring).filter (fun e => rayCrosses e.1 e.2 p)).length % 2 == 1

/-- Models shapely `geometry.intersects(point)` for a polygon: true iff the
point belongs to the closed polygonal region, boundary included (an
intersection test, not strict containment). -/
def pointInPolygon (ring : PRing) (p : Pt) : Bool :=
  onBoundary ring p || crossingsOdd ring p

/-- Squared distance from `p` to the closed segment `a`–`b` (projection
clamped to the segment). -/
def segDistSq (a b p : Pt) : ℚ :=
  let dx := b.x - a.x
  let dy := b.y - a.y
  let len2 := dx * dx + dy * dy
  if len2 = 0 then (p.x - a.x) ^ 2 + (p.y - a.y) ^ 2
  else
    let t := max 0 (min 1 (((p.x - a.x) * dx + (p.y - a.y) * dy) / len2))
    (p.x - (a.x + t * dx)) ^ 2 + (p.y - (a.y + t * dy)) ^ 2

/-- Models shapely `geometry.intersects(point.buffer(r))`: the closed disc of
radius `r` about `p` meets the closed polygon iff `p` is inside it or some
boundary segment comes within distance `r` of `p`.  (Shapely's `buffer`
builds a fine polygonal approximation of this disc.) -/
def bufferIntersects (ring : PRing) (p : Pt) (r : ℚ) : Bool :=
  pointInPolygon ring p ||
    (edges ring).any (fun e => decide (segDistSq e.1 e.2 p ≤ r * r))

/-- `user_point.buffer(0.00001)` — the buffer radius literal of
`get_building_footprints` (utils.py line 143). -/
def buffer_radius : ℚ := 1 / 100000

/-- A feature of the local building dataset `cadastre-75-batiments.json`:
`geometry` is the exterior ring of its footprint polygon; `tag` stands for
the rest of the feature object, which the search never inspects. -/
structure BldFeature where
  geometry : PRing
  tag : Nat
deriving DecidableEq, Repr

/-- Result of `get_building_footprints`: a feature or an error dict. -/
inductive BuildingResult where
  | found (f : BldFeature)
  | error (msg : String)
deriving DecidableEq, Repr

/-- The search loop of `get_building_footprints` (utils.py lines 147–158):
for each feature in file order, first the exact-point intersection test, then
the buffered-point test; the first feature passing either wins. -/
def findBuilding (p : Pt) : List BldFeature → Option BldFeature
  | [] => none
  | f :: rest =>
    if pointInPolygon f.geometry p then some f
    else if bufferIntersects f.geometry p buffer_radius then some f
    else findBuilding p rest

/-- `get_building_footprints` (utils.py lines 123–163); `dataset` is the
parsed local file (`none` models `FileNotFoundError`). -/
def get_building_footprints (dataset : Option (List BldFeature)) (p : Pt) :
    BuildingResult :=
  match dataset with
  | none => .error "Building data not found."
  | some features =>
    match findBuilding p features with
    | some f => .found f
    | none => .error "No matching building found at this location."

/-- The disjunction of the two per-feature tests, in their source order. -/
def featureHit (p : Pt) (f : BldFeature) : Bool :=
  pointInPolygon f.geometry p || bufferIntersects f.geometry p buffer_radius

lemma findBuilding_cons_hit (p : Pt) (f : BldFeature) (rest : List BldFeature)
    (h : featureHit p f = true) : findBuilding p (f :: rest) = some f := by
  simp only [featureHit, Bool.or_eq_true] at h
  rcases h with h | h
  · simp only [findBuilding, h, if_true]
  · by_cases h0 : pointInPolygon f.geometry p = true
    · simp only [findBuilding, h0, if_true]
    · simp only [findBuilding, h0, Bool.false_eq_true, if_false, h, if_true]

lemma findBuilding_cons_miss (p : Pt) (f : BldFeature) (rest : List BldFeature)
    (h : featureHit p f = false) :
    findBuilding p (f :: rest) = findBuilding p rest := by
  simp only [featureHit, Bool.or_eq_false_iff] at h
  simp only [findBuilding, h.1, Bool.false_eq_true, if_false, h.2]

lemma findBuilding_append_of_miss (p : Pt) (pre rest : List BldFeature)
    (h : ∀ g ∈ pre, featureHit p g = false) :
    findBuilding p (pre ++ rest) = findBuilding p rest := by
  induction pre with
  | nil => rfl
  | cons g pre ih =>
    rw [List.cons_append, findBuilding_cons_miss p g _ (h g (by simp))]
    exact ih (fun g' hg' => h g' (by simp [hg']))

lemma findBuilding_eq_none (p : Pt) (fs : List BldFeature)
    (h : ∀ g ∈ fs, featureHit p g = false) : findBuilding p fs = none := by
  induction fs with
  | nil => rfl
  | cons g fs ih =>
    rw [findBuilding_cons_miss p g _ (h g (by simp))]
    exact ih (fun g' hg' => h g' (by simp [hg']))

/-- A point on a boundary segment of a ring intersects the polygon. -/
lemma pointInPolygon_of_onSegment (ring : PRing) (p : Pt) (a b : Pt)
    (hmem : (a, b) ∈ edges ring) (hseg : onSegment a b p = true) :
    pointInPolygon ring p = true := by
  have hb : onBoundary ring p = true := by
    simp only [onBoundary, List.any_eq_true]
    exact ⟨(a, b), hmem, hseg⟩
  simp only [pointInPolygon, hb, Bool.true_or]

/-- C3: the building footprint locator returns the first feature in file
order passing the exact-point intersection test or, failing that, the
buffered test of radius 0.00001 (the tests are applied in that order per
feature — see `findBuilding`); a point lying exactly on a boundary edge of a
feature's polygon passes the intersection test, so such a feature is returned
rather than an error; when no feature passes either test the result is
`{error: "No matching building found at this location."}`. -/
theorem C3_get_building_footprints (p : Pt) (pre post fs : List BldFeature)
    (f : BldFeature) (a b : Pt) :
    (featureHit p f = true → (∀ g ∈ pre, featureHit p g = false) →
      get_building_footprints (some (pre ++ f :: post)) p = .found f)
    ∧ ((∀ g ∈ fs, featureHit p g = false) →
      get_building_footprints (some fs) p =
        .error "No matching building found at this location.")
    ∧ ((a, b) ∈ edges f.geometry → onSegment a b p = true →
      (∀ g ∈ pre, featureHit p g = false) →
      get_building_footprints (some (pre ++ f :: post)) p = .found f) := by
  have hfirst : featureHit p f = true → (∀ g ∈ pre, featureHit p g = false) →
      get_building_footprints (some (pre ++ f :: post)) p = .found f := by
    intro hf hpre
    simp only [get_building_footprints, findBuilding_append_of_miss p pre _ hpre,
      findBuilding_cons_hit p f post hf]
  refine ⟨hfirst, ?_, ?_⟩
  · intro h
    simp only [get_building_footprints, findBuilding_eq_none p fs h]
  · intro hmem hseg hpre
    have hpip := pointInPolygon_of_onSegment f.geometry p a b hmem hseg
    exact hfirst (by simp only [featureHit, hpip, Bool.true_or]) hpre

/-- Witness for C3: the point (1/2, 0) lies exactly on the bottom edge of the
unit square; the locator returns the square's feature, after skipping a
distant triangle that fails both tests. -/
theorem C3_get_building_footprints_witness :
    get_building_footprints
        (some [⟨[⟨10, 10⟩, ⟨11, 10⟩, ⟨11, 11⟩, ⟨10, 10⟩], 0⟩,
               ⟨[⟨0, 0⟩, ⟨1, 0⟩, ⟨1, 1⟩, ⟨0, 1⟩, ⟨0, 0⟩], 1⟩])
        ⟨1/2, 0⟩ =
      .found ⟨[⟨0, 0⟩, ⟨1, 0⟩, ⟨1, 1⟩, ⟨0, 1⟩, ⟨0, 0⟩], 1⟩ := by
  have h := C3_get_building_footprints ⟨1/2, 0⟩
    [⟨[⟨10, 10⟩, ⟨11, 10⟩, ⟨11, 11⟩, ⟨10, 10⟩], 0⟩] []
    [] ⟨[⟨0, 0⟩, ⟨1, 0⟩, ⟨1, 1⟩, ⟨0, 1⟩, ⟨0, 0⟩], 1⟩ ⟨0, 0⟩ ⟨1, 0⟩
  apply h.2.2
  · decide
  · norm_num [onSegment, cross, min_def, max_def]
  · intro g hg
    simp only [List.mem_singleton] at hg
    subst hg
    norm_num [featureHit, pointInPolygon, onBoundary, edges, onSegment, cross,
      crossingsOdd, rayCrosses, bufferIntersects, segDistSq, buffer_radius,
      min_def, max_def]

/-- Esri geometry of a remote footprint feature: `rings` models the
possibly-missing `"rings"` key.  (A feature missing the `"geometry"` key
entirely would make the source raise `KeyError` when building the summary;
the features considered here always carry one.) -/
structure FpGeometry where
  rings : Option (List (List (ℚ × ℚ)))
deriving DecidableEq, Repr

/-- A feature returned by the per-identifier footprint query:
`attributes` models `feature.get("attributes", {})`. -/
structure FpFeature where
  attributes : Option BAttributes
  geometry : FpGeometry
deriving DecidableEq, Repr

/-- Parsed body of a per-identifier footprint query response; `features`
models presence of the `"features"` key. -/
structure FpBody where
  features : Option (List FpFeature)
deriving DecidableEq, Repr

/-- `convert_coordinates_into_lat_lon` (utils.py lines 165–179): the pyproj
transformer (EPSG:2154 → EPSG:4326 with `always_xy`, abstracted here as
`transform`, returning `(lon, lat)`) is applied and the pair is reversed so
the result is `(lat, lon)`. -/
def convert_coordinates_into_lat_lon (transform : ℚ × ℚ → ℚ × ℚ)
    (x y : ℚ) : ℚ × ℚ :=
  let lonlat := transform (x, y)
  (lonlat.2, lonlat.1)

/-- Geometry stored in a building summary: either the replacement
`{"type": "Polygon", "coordinates": ...}` dict built from converted rings, or
the feature's original geometry when it has no `rings`. -/
inductive OutGeometry where
  | polygon (coordinates : List (List (ℚ × ℚ)))
  | raw (g : FpGeometry)
deriving DecidableEq, Repr

/-- The summary dict appended per building (utils.py lines 297–303). -/
structure BuildingSummary where
  cadastral_parcel_id : PyScalar
  shape_area : PyScalar
  shape_length : PyScalar
  b_terrasse : PyScalar
  geometry : OutGeometry
deriving DecidableEq, Repr

/-- The `grouped_buildings` dict: construction-era label → buildings, in
insertion order. -/
abbrev GroupedMap := List (String × List BuildingSummary)

/-- The `{}` default of `feature.get("attributes", {})`. -/
def defaultBAttributes : BAttributes := ⟨none, none, none, none, none, none⟩

/-- `attributes.get(key, "Not Available")`. -/
def notAvailable (v : Option PyScalar) : PyScalar := v.getD (.str "Not Available")

/-- Per-feature work of the loop body (utils.py lines 277–303): compute the
era label, convert ring coordinates when present, build the summary. -/
def processFeature (transform : ℚ × ℚ → ℚ × ℚ) (f : FpFeature) :
    String × BuildingSummary :=
  let attributes := f.attributes.getD defaultBAttributes
  let year := get_construction_year attributes
  let geom : OutGeometry :=
    match f.geometry.rings with
    | some rings =>
      .polygon (rings.map (fun ring =>
        ring.map (fun v => convert_coordinates_into_lat_lon transform v.1 v.2)))
    | none => .raw f.geometry
  (year,
   { cadastral_parcel_id :=
       match attributes.n_sq_pc with
       | some n => .int n
       | none => .str "Not Available",
     shape_area := notAvailable attributes.shape_area,
     shape_length := notAvailable attributes.shape_length,
     b_terrasse := notAvailable attributes.b_terrasse,
     geometry := geom })

/-- Python dict insertion: append to the year's list, creating the key at the
end on first encounter (utils.py lines 294–303). -/
def addToGroup (grouped : GroupedMap) (year : String) (s : BuildingSummary) :
    GroupedMap :=
  if grouped.any (fun kv => kv.1 == year) then
    grouped.map (fun kv => if kv.1 == year then (kv.1, kv.2 ++ [s]) else kv)
  else grouped ++ [(year, [s])]

/-- The inner loop over one response's features (utils.py lines 277–303). -/
def processFpBody (transform : ℚ × ℚ → ℚ × ℚ) (fs : List FpFeature)
    (grouped : GroupedMap) : GroupedMap :=
  fs.foldl (fun g f =>
    let ys := processFeature transform f
    addToGroup g ys.1 ys.2) grouped

/-- One iteration of the loop over identifiers (utils.py lines 262–307): a
failed request is logged and skipped; a response without features (or with an
empty list) is skipped; otherwise its features are folded in. -/
def groupStep (transform : ℚ × ℚ → ℚ × ℚ) (query : Int → FetchResult FpBody)
    (grouped : GroupedMap) (cadastral_parcel_id : Int) : GroupedMap :=
  match query cadastral_parcel_id with
  | .failure _ => grouped
  | .success data =>
    match data.features with
    | none => grouped
    | some fs => if fs.isEmpty then grouped else processFpBody transform fs grouped

/-- `get_building_data_by_cadastral_parcel_id` (utils.py lines 250–309),
parameterized by the coordinate transformer and the per-identifier query.
Its return type is the grouping map itself: every control path returns
`grouped_buildings`, never an error object. -/
def get_building_data_by_cadastral_parcel_id (transform : ℚ × ℚ → ℚ × ℚ)
    (query : Int → FetchResult FpBody)
    (cadastral_parcel_id_list : List Int) : GroupedMap :=
  cadastral_parcel_id_list.foldl (groupStep transform query) []

/-- A per-identifier query outcome that contributes nothing: a transport
failure, or a body with no features key or an empty features list. -/
def fruitlessQuery (r : FetchResult FpBody) : Prop :=
  match r with
  | .failure _ => True
  | .success b => b.features = none ∨ b.features = some []

lemma groupStep_fruitless (transform : ℚ × ℚ → ℚ × ℚ)
    (query : Int → FetchResult FpBody) (g : GroupedMap) (cid : Int)
    (h : fruitlessQuery (query cid)) : groupStep transform query g cid = g := by
  unfold groupStep
  cases hq : query cid with
  | failure msg => rfl
  | success b =>
    simp only [fruitlessQuery, hq] at h
    rcases h with h | h <;> simp [h]

lemma foldl_groupStep_fruitless (transform : ℚ × ℚ → ℚ × ℚ)
    (query : Int → FetchResult FpBody) :
    ∀ (ids : List Int) (g : GroupedMap),
      (∀ cid ∈ ids, fruitlessQuery (query cid)) →
      ids.foldl (groupStep transform query) g = g
  | [], _, _ => rfl
  | cid :: ids, g, h => by
    rw [List.foldl_cons, groupStep_fruitless transform query g cid (h cid (by simp))]
    exact foldl_groupStep_fruitless transform query ids g
      (fun c hc => h c (by simp [hc]))

/-- C10: on a non-empty identifier list whose per-identifier queries all fail
or return zero features, the era-grouping operation returns the empty mapping
`{}` — and its return type (`GroupedMap`, never an error object) means a
caller receives this empty result as an ordinary success, with no indication
of failure. -/
theorem C10_empty_grouping_on_fruitless (transform : ℚ × ℚ → ℚ × ℚ)
    (query : Int → FetchResult FpBody) (ids : List Int) (hne : ids ≠ [])
    (h : ∀ cid ∈ ids, fruitlessQuery (query cid)) :
    get_building_data_by_cadastral_parcel_id transform query ids = [] :=
  foldl_groupStep_fruitless transform query ids [] h

/-- Witness for C10: two identifiers, one failing transport, one returning an
empty features list. -/
theorem C10_empty_grouping_on_fruitless_witness :
    get_building_data_by_cadastral_parcel_id (fun v => v)
      (fun cid => if cid = 7 then .failure "timeout" else .success ⟨some []⟩)
      [7, 8] = [] := by
  apply C10_empty_grouping_on_fruitless
  · simp
  · intro cid hc
    simp only [List.mem_cons, List.not_mem_nil, or_false] at hc
    rcases hc with hc | hc <;> subst hc <;> simp [fruitlessQuery]

/-- Membership of a summary in a grouping map, under its era label. -/
def inGroups (m : GroupedMap) (year : String) (s : BuildingSummary) : Prop :=
  ∃ ss, (year, ss) ∈ m ∧ s ∈ ss

lemma inGroups_addToGroup (m : GroupedMap) (y : String) (s : BuildingSummary)
    (y' : String) (s' : BuildingSummary)
    (h : inGroups (addToGroup m y s) y' s') :
    inGroups m y' s' ∨ (y' = y ∧ s' = s) := by
  obtain ⟨ss, hmem, hs⟩ := h
  unfold addToGroup at hmem
  by_cases hany : m.any (fun kv => kv.1 == y) = true
  · rw [if_pos hany] at hmem
    obtain ⟨kv, hkv, heq⟩ := List.mem_map.mp hmem
    by_cases hk : (kv.1 == y) = true
    · rw [if_pos hk] at heq
      have hy : kv.1 = y' := congrArg Prod.fst heq
      have hss : kv.2 ++ [s] = ss := congrArg Prod.snd heq
      rw [← hss] at hs
      rcases List.mem_append.mp hs with hs | hs
      · exact Or.inl ⟨kv.2, by rw [← hy]; exact hkv, hs⟩
      · have : s' = s := List.mem_singleton.mp hs
        exact Or.inr ⟨by rw [← hy]; exact eq_of_beq hk, this⟩
    · rw [if_neg hk] at heq
      exact Or.inl ⟨ss, heq ▸ hkv, hs⟩
  · rw [if_neg hany] at hmem
    rcases List.mem_append.mp hmem with hmem | hmem
    · exact Or.inl ⟨ss, hmem, hs⟩
    · have hpair := List.mem_singleton.mp hmem
      have hy : y' = y := by
        have := congrArg Prod.fst hpair
        exact this
      have hss : ss = [s] := congrArg Prod.snd hpair
      rw [hss] at hs
      exact Or.inr ⟨hy, List.mem_singleton.mp hs⟩

lemma inGroups_processFpBody (transform : ℚ × ℚ → ℚ × ℚ) :
    ∀ (fs : List FpFeature) (g : GroupedMap) (y : String) (s : BuildingSummary),
      inGroups (processFpBody transform fs g) y s →
      inGroups g y s ∨ ∃ f, processFeature transform f = (y, s)
  | [], _, _, _, h => Or.inl h
  | f :: fs, g, y, s, h => by
    have h' := inGroups_processFpBody transform fs
      (addToGroup g (processFeature transform f).1 (processFeature transform f).2)
      y s h
    rcases h' with h' | h'
    · rcases inGroups_addToGroup _ _ _ _ _ h' with h'' | ⟨hy, hs⟩
      · exact Or.inl h''
      · exact Or.inr ⟨f, by rw [hy, hs]⟩
    · exact Or.inr h'

lemma groupStep_of_failure (transform : ℚ × ℚ → ℚ × ℚ)
    (query : Int → FetchResult FpBody) (g : GroupedMap) (cid : Int)
    (msg : String) (hq : query cid = .failure msg) :
    groupStep transform query g cid = g := by
  unfold groupStep
  rw [hq]

lemma groupStep_of_success (transform : ℚ × ℚ → ℚ × ℚ)
    (query : Int → FetchResult FpBody) (g : GroupedMap) (cid : Int)
    (b : FpBody) (hq : query cid = .success b) :
    groupStep transform query g cid =
      (match b.features with
       | none => g
       | some fs => if fs.isEmpty then g else processFpBody transform fs g) := by
  unfold groupStep
  rw [hq]

lemma inGroups_groupStep (transform : ℚ × ℚ → ℚ × ℚ)
    (query : Int → FetchResult FpBody) (g : GroupedMap) (cid : Int)
    (y : String) (s : BuildingSummary)
    (h : inGroups (groupStep transform query g cid) y s) :
    inGroups g y s ∨ ∃ f, processFeature transform f = (y, s) := by
  rcases hq : query cid with msg | b
  · rw [groupStep_of_failure transform query g cid msg hq] at h
    exact Or.inl h
  · rw [groupStep_of_success transform query g cid b hq] at h
    rcases hf : b.features with _ | fs
    · rw [hf] at h
      exact Or.inl h
    · rw [hf] at h
      have h2 : inGroups
          (if fs.isEmpty then g else processFpBody transform fs g) y s := h
      by_cases he : fs.isEmpty = true
      · rw [if_pos he] at h2
        exact Or.inl h2
      · rw [if_neg he] at h2
        exact inGroups_processFpBody transform fs g y s h2

lemma inGroups_foldl (transform : ℚ × ℚ → ℚ × ℚ)
    (query : Int → FetchResult FpBody) :
    ∀ (ids : List Int) (g : GroupedMap) (y : String) (s : BuildingSummary),
      inGroups (ids.foldl (groupStep transform query) g) y s →
      inGroups g y s ∨ ∃ f, processFeature transform f = (y, s)
  | [], _, _, _, h => Or.inl h
  | cid :: ids, g, y, s, h => by
    rw [List.foldl_cons] at h
    rcases inGroups_foldl transform query ids _ y s h with h' | h'
    · exact inGroups_groupStep transform query g cid y s h'
    · exact Or.inr h'

/-- C9: every reprojected ring vertex is stored as the pair
`(latitude, longitude)` returned by `convert_coordinates_into_lat_lon`
(i.e. the transformer's `(lon, lat)` output reversed), so every summary in
the era-grouped output whose geometry is a converted `"Polygon"` carries
latitude-first coordinates: its coordinate lists are the image of some source
rings under `v ↦ ((transform v).2, (transform v).1)`. -/
theorem C9_polygon_latitude_first (transform : ℚ × ℚ → ℚ × ℚ)
    (query : Int → FetchResult FpBody) (ids : List Int) (year : String)
    (s : BuildingSummary) (coords : List (List (ℚ × ℚ))) :
    (∀ x y, convert_coordinates_into_lat_lon transform x y =
      ((transform (x, y)).2, (transform (x, y)).1))
    ∧ (inGroups (get_building_data_by_cadastral_parcel_id transform query ids)
          year s →
        s.geometry = .polygon coords →
        ∃ rs : List (List (ℚ × ℚ)),
          coords = rs.map (fun ring =>
            ring.map (fun v => ((transform v).2, (transform v).1)))) := by
  constructor
  · intro x y; rfl
  · intro hin hpoly
    rcases inGroups_foldl transform query ids [] year s hin with h | ⟨f, hf⟩
    · obtain ⟨ss, hmem, _⟩ := h
      exact absurd hmem (List.not_mem_nil _)
    · have hgeom : (processFeature transform f).2.geometry = s.geometry :=
        congrArg (fun p => p.2.geometry) hf
      cases hr : f.geometry.rings with
      | none =>
        rw [hpoly] at hgeom
        simp only [processFeature, hr] at hgeom
        exact absurd hgeom (by simp)
      | some rs =>
        refine ⟨rs, ?_⟩
        rw [hpoly] at hgeom
        simp only [processFeature, hr] at hgeom
        have := (OutGeometry.polygon.injEq _ _).mp hgeom
        rw [← this]
        rfl

/-- Witness for C9: one queried feature with a single ring vertex, with the
transformer instantiated to the coordinate swap. -/
theorem C9_polygon_latitude_first_witness :
    ∃ rs : List (List (ℚ × ℚ)),
      [[((2 : ℚ), (3 : ℚ))]] = rs.map (fun ring =>
        ring.map (fun v =>
          (((fun w : ℚ × ℚ => (w.2, w.1)) v).2,
           ((fun w : ℚ × ℚ => (w.2, w.1)) v).1))) := by
  have h := C9_polygon_latitude_first (fun w : ℚ × ℚ => (w.2, w.1))
    (fun _ => .success ⟨some [⟨none, ⟨some [[(2, 3)]]⟩⟩]⟩) [7] "Year Unknown"
    ⟨.str "Not Available", .str "Not Available", .str "Not Available",
      .str "Not Available", .polygon [[(2, 3)]]⟩
    [[(2, 3)]]
  apply h.2
  · have he : get_building_data_by_cadastral_parcel_id (fun w : ℚ × ℚ => (w.2, w.1))
        (fun _ => .success ⟨some [⟨none, ⟨some [[(2, 3)]]⟩⟩]⟩) [7] =
        [("Year Unknown",
          [⟨.str "Not Available", .str "Not Available", .str "Not Available",
            .str "Not Available", .polygon [[(2, 3)]]⟩])] := rfl
    rw [he]
    exact ⟨_, List.mem_singleton.mpr rfl, List.mem_singleton.mpr rfl⟩
  · rfl

/-- `attributes` sub-object of a bounding-box footprint feature. -/
structure CadAttributes where
  n_sq_pc : Option Int
deriving DecidableEq, Repr

/-- A feature of the bounding-box footprint query response; `attributes`
models presence of the `"attributes"` key. -/
structure CadQFeature where
  attributes : Option CadAttributes
deriving DecidableEq, Repr

/-- Parsed body of the bounding-box footprint query response. -/
structure CadBody where
  features : Option (List CadQFeature)
deriving DecidableEq, Repr

/-- Value returned by `get_cadastral_parcel_id`: the Python list of distinct
`n_sq_pc` values, or one of its `{"error": ...}` dicts. -/
inductive CadastralResult where
  | ids (l : List Int)
  | err (msg : String)
deriving DecidableEq, Repr

/-- `get_cadastral_parcel_id` (utils.py lines 214–247), as a function of the
bounding-box query's outcome.  `list(set(...))` is modelled as
first-occurrence deduplication (CPython set iteration order is unspecified;
no claim depends on the order). -/
def get_cadastral_parcel_id (upstream : FetchResult CadBody) : CadastralResult :=
  match upstream with
  | .failure msg => .err ("API request failed: " ++ msg)
  | .success data =>
    match data.features with
    | none => .err "No buildings found at this location."
    | some fs =>
      if fs.length = 0 then .err "No buildings found at this location."
      else .ids ((fs.filterMap
        (fun f => f.attributes.bind (fun a => a.n_sq_pc))).dedup)

/-- Digit run to a natural number. -/
def digitsToNat (cs : List Char) : Nat :=
  cs.foldl (fun n c => n * 10 + (c.toNat - 48)) 0

/-- Models the Python builtin `float()` on the plain decimal literals this
API receives: an optional sign, then digits with an optional fractional part.
The other forms Python accepts (exponents, `inf`/`nan`, underscores,
surrounding whitespace) are not modelled; `none` means `float()` raises
`ValueError`. -/
def pyParseFloat (s : String) : Option ℚ :=
  let cs := s.toList
  let signBody : ℚ × List Char :=
    match cs with
    | '-' :: rest => (-1, rest)
    | '+' :: rest => (1, rest)
    | _ => (1, cs)
  let intPart := signBody.2.takeWhile Char.isDigit
  let rest := signBody.2.dropWhile Char.isDigit
  match rest with
  | [] =>
    if intPart.isEmpty then none
    else some (signBody.1 * (digitsToNat intPart : ℚ))
  | '.' :: frac =>
    if frac.all Char.isDigit && !(intPart.isEmpty && frac.isEmpty) then
      some (signBody.1 * ((digitsToNat intPart : ℚ) +
        (digitsToNat frac : ℚ) / ((10 : ℚ) ^ frac.length)))
    else none
  | _ => none

/-- Python `repr()` of a short string as it appears in `float()`'s
`ValueError` message (quoting only; none of the inputs considered need
escaping). -/
def pyRepr (s : String) : String := "'" ++ s ++ "'"

/-- `get_float_value` (utils.py lines 25–35): `float(value) if value else
None`.  An empty string is falsy, so it yields `None` without error; a
non-empty unparsable string makes `float()` raise `ValueError` whose
`str()` is `could not convert string to float: '<value>'`, which propagates
to the caller (`Except.error`) — despite the docstring's promise to return
`None` when conversion fails. -/
def get_float_value (value : String) : Except String (Option ℚ) :=
  if value = "" then .ok none
  else
    match pyParseFloat value with
    | some q => .ok (some q)
    | none => .error ("could not convert string to float: " ++ pyRepr value)

/-- Parsed JSON body of the permits API response, forwarded verbatim by the
handler; modelled as an opaque key/value list. -/
abbrev PermitsBody := List (String × String)

/-- Value returned by `fetch_permits_data`: the body, or an error dict. -/
inductive PermitsData where
  | body (b : PermitsBody)
  | errorMsg (msg : String)
deriving DecidableEq, Repr

/-- `fetch_permits_data` (utils.py lines 38–57), as a function of the permits
API call's outcome. -/
def fetch_permits_data (upstream : FetchResult PermitsBody) : PermitsData :=
  match upstream with
  | .failure msg => .errorMsg ("Failed to fetch permits: " ++ msg)
  | .success b => .body b

/-- The upstream world observed by one permits request: outcomes of the four
HTTP calls, the local parcel dataset, and the coordinate transformer. -/
structure PermitsUpstream where
  permits : FetchResult PermitsBody
  reverse : FetchResult RevBody
  parcelDataset : Option (List CadFeature)
  footprintBox : FetchResult CadBody
  perId : Int → FetchResult FpBody
  transform : ℚ × ℚ → ℚ × ℚ

/-- HTTP response of the permits endpoint (`views.py` lines 142–155): the
merged 200 payload, or an `{"error": ...}` body with status 400, 404 or
500. -/
inductive PermitsResponse where
  | ok (permits : PermitsData) (parcel : ParcelFetchResult) (buildings : GroupedMap)
  | badRequest (error : String)
  | notFound (error : String)
  | serverError (error : String)
deriving DecidableEq, Repr

/-- `isinstance(cadastral_parcel_id, int)` (views.py line 135): the value
returned by `get_cadastral_parcel_id` is a Python list or dict, never an
int, so this test is false for every possible result. -/
def isPyInt : CadastralResult → Bool := fun _ => false

/-- `get_planning_permits` (views.py lines 102–155).  The second component
of the result is the list of per-identifier footprint queries issued during
the request (the only caller of such queries,
`get_building_data_by_cadastral_parcel_id`, queries each identifier it is
given, in order).  A `ValueError` maps to 400, a `LookupError` to 404, and
any other exception to 500 with `"An unexpected error occurred."`. -/
def get_planning_permits (house_number : Int) (street_name : String)
    (lat lon : String) (u : PermitsUpstream) : PermitsResponse × List Int :=
  match get_float_value lat with
  | .error msg => (.badRequest msg, [])
  | .ok lat_val =>
    match get_float_value lon with
    | .error msg => (.badRequest msg, [])
    | .ok lon_val =>
      match lat_val, lon_val with
      | none, _ => (.badRequest "Invalid latitude or longitude format.", [])
      | some _, none => (.badRequest "Invalid latitude or longitude format.", [])
      | some _, some _ =>
        let permits_data := fetch_permits_data u.permits
        let parcel_locate := get_parcel_data u.reverse
        let parcel_data := fetch_parcel_by_id u.parcelDataset parcel_locate.parcel_id
        let cadastral_parcel_id := get_cadastral_parcel_id u.footprintBox
        if isPyInt cadastral_parcel_id then
          -- Were the guard ever satisfied, iterating the int inside
          -- get_building_data_by_cadastral_parcel_id would raise TypeError,
          -- caught by the blanket handler as HTTP 500; the 200 merge below it
          -- is unreachable either way.
          (.serverError "An unexpected error occurred.", [])
        else
          (.notFound "No buildings found for this location.", [])

/-- Every control path of the handler issues no per-identifier footprint
query: the `isinstance` guard (false for every value the lookup can return)
raises `LookupError` before step 2 is ever reached. -/
lemma get_planning_permits_trace (house_number : Int) (street_name : String)
    (lat lon : String) (u : PermitsUpstream) :
    (get_planning_permits house_number street_name lat lon u).2 = [] := by
  unfold get_planning_permits
  rcases get_float_value lat with m | lv
  · rfl
  · rcases get_float_value lon with m | lv2
    · rfl
    · rcases lv with _ | latq
      · rfl
      · rcases lv2 with _ | lonq
        · rfl
        · rfl

/-- C6: when the bounding-box footprint query returns zero features, step 1
of the cross-reference returns exactly
`{"error": "No buildings found at this location."}`, and the request issues
no per-identifier follow-up query. -/
theorem C6_zero_features_no_follow_up (house_number : Int)
    (street_name lat lon : String) (u : PermitsUpstream) :
    (get_cadastral_parcel_id (.success ⟨some []⟩) =
      .err "No buildings found at this location.")
    ∧ (u.footprintBox = .success ⟨some []⟩ →
        (get_planning_permits house_number street_name lat lon u).2 = []) :=
  ⟨rfl, fun _ => get_planning_permits_trace house_number street_name lat lon u⟩

/-- A concrete upstream record whose calls all fail (their outcomes are
irrelevant to the claims evaluated on it). -/
def trivialUpstream : PermitsUpstream :=
  { permits := .failure "down",
    reverse := .failure "down",
    parcelDataset := none,
    footprintBox := .failure "down",
    perId := fun _ => .failure "down",
    transform := fun v => v }

/-- Witness for C6 at a concrete request whose bounding-box query returns
zero features. -/
theorem C6_zero_features_no_follow_up_witness :
    get_cadastral_parcel_id (.success ⟨some []⟩) =
      .err "No buildings found at this location."
    ∧ (get_planning_permits 111 "Rue du Chateau des Rentiers 75013 Paris"
        "48.8300" "2.3500"
        { trivialUpstream with footprintBox := .success ⟨some []⟩ }).2 = [] := by
  have h := C6_zero_features_no_follow_up 111
    "Rue du Chateau des Rentiers 75013 Paris" "48.8300" "2.3500"
    { trivialUpstream with footprintBox := .success ⟨some []⟩ }
  exact ⟨h.1, h.2 rfl⟩

/-- C7 (failing input): a request whose longitude is the non-numeric string
`"abc"` gets HTTP 400, but its body carries Python's own `float()` message —
`{"error": "could not convert string to float: 'abc'"}` — because the
`ValueError` raised inside `float()` propagates and the view returns
`str(e)`.  The body the claim states,
`{"error": "Invalid latitude or longitude format."}`, is produced only when
the latitude or longitude string is empty (then `get_float_value` returns
`None` and the view raises its own `ValueError`), as the second conjunct
shows. -/
theorem C7_invalid_longitude_message :
    (get_planning_permits 111 "Rue du Chateau des Rentiers 75013 Paris"
        "48.8300" "abc" trivialUpstream).1 =
      .badRequest "could not convert string to float: 'abc'"
    ∧ (get_planning_permits 111 "Rue du Chateau des Rentiers 75013 Paris"
        "" "2.3500" trivialUpstream).1 =
      .badRequest "Invalid latitude or longitude format." :=
  ⟨rfl, rfl⟩

/-- A concrete upstream record on which every lookup of the permits request
succeeds; its bounding-box footprint query returns one feature carrying
`n_sq_pc = 123`, so step 1 of the cross-reference yields the non-empty
identifier list `[123]`. -/
def c1Upstream : PermitsUpstream :=
  { permits := .success [("records", "permit #1")],
    reverse := .success ⟨true, some [⟨some ⟨some 5, some "75113000AB0123"⟩⟩]⟩,
    parcelDataset := some [⟨some "75113000AB0123", []⟩],
    footprintBox := .success ⟨some [⟨some ⟨some 123⟩⟩]⟩,
    perId := fun _ => .success ⟨some [⟨none, ⟨some [[(2, 3)]]⟩⟩]⟩,
    transform := fun v => (v.2, v.1) }

/-- C1 (failing input): on a request whose coordinates parse and whose
cadastral-identifier lookup returns the non-empty list `[123]`, the handler
does not return the merged 200 payload: `isinstance(cadastral_parcel_id,
int)` is false for the returned list, so the handler raises `LookupError`
and responds 404 `{"error": "No buildings found for this location."}` —
step 2 and the merge are unreachable. -/
theorem C1_permits_endpoint_never_merges :
    get_cadastral_parcel_id c1Upstream.footprintBox = .ids [123]
    ∧ (get_planning_permits 111 "Rue du Chateau des Rentiers 75013 Paris"
        "48.8300" "2.3500" c1Upstream).1 =
      .notFound "No buildings found for this location." :=
  ⟨rfl, rfl⟩
